import Mathlib

/-!
Verification of the ETL Flow Manager core (field-mapping ETL transform and
database manager) against its specification. The Python source is embedded
shallowly: pandas DataFrames become `Dataset`, the SQLAlchemy engine,
inspector and driver become explicit oracles, and each `DatabaseManager`
method and the `run_etl_process` transform become Lean functions.
-/

set_option autoImplicit false

namespace ETL

/-- Cell values that can appear in a Dataset: the model keeps the value
kinds the ETL path actually produces (source cells, the SCD2 load
timestamp, `None` and `True`). -/
inductive Value where
  | vint : Int → Value
  | vstr : String → Value
  | vbool : Bool → Value
  | vtime : Nat → Value
  | vnull : Value
  deriving DecidableEq, Repr

/-- A pandas DataFrame as used by the application: a named, ordered set of
columns over an ordered list of rows. -/
structure Dataset where
  columns : List String
  rows : List (List Value)
  deriving DecidableEq, Repr

/-- Index of the first column with the given name, as pandas column lookup
resolves a label to a position. -/
def colIdx : List String → String → Option Nat
  | [], _ => none
  | c :: cs, x => if x = c then some 0 else (colIdx cs x).map (fun n => n + 1)

/-- Mapping failures the transform step of `run_etl_process` can raise:
selecting an absent column from the source DataFrame raises a `KeyError`
naming the column (caught at line 1169 of the source). -/
inductive MappingError where
  | unknownSourceField : String → MappingError
  deriving DecidableEq, Repr

/-- Resolve each requested column label to its position in `headers`,
failing on the first label that is absent (pandas `KeyError`). -/
def resolveIdxs (headers : List String) : List String → Except String (List Nat)
  | [] => .ok []
  | c :: cs =>
    match colIdx headers c with
    | none => .error c
    | some i =>
      match resolveIdxs headers cs with
      | .error f => .error f
      | .ok is => .ok (i :: is)

/-- Project one row onto the resolved column positions. -/
def rowProject (idxs : List Nat) (r : List Value) : List Value :=
  idxs.map (fun i => r[i]?.getD Value.vnull)

/-- Column selection `df[[c1, ..., ck]]` (source line 1149): keeps the rows
in order and keeps, per row, exactly the cells of the selected columns. -/
def dfSelect (d : Dataset) (cols : List String) : Except MappingError Dataset :=
  match resolveIdxs d.columns cols with
  | .error f => .error (.unknownSourceField f)
  | .ok idxs => .ok ⟨cols, d.rows.map (rowProject idxs)⟩

/-- Python dict lookup over an association list with unique keys. -/
def lookupDict : List (String × String) → String → Option String
  | [], _ => none
  | (k, v) :: rest, x => if x = k then some v else lookupDict rest x

/-- DataFrame column rename `df.rename(columns=mappings)` (source line
1150): each column name present in the dict is replaced by its target,
all other names and all cell values are untouched. -/
def renameCols (m : List (String × String)) (d : Dataset) : Dataset :=
  ⟨d.columns.map (fun c => (lookupDict m c).getD c), d.rows⟩

/-- The field-mapping transform of `run_etl_process` (source lines
1147-1150): select the mapped source columns in mapping order and rename
them to their targets. -/
def apply_mapping (source : Dataset) (m : List (String × String)) :
    Except MappingError Dataset :=
  match dfSelect source (m.map Prod.fst) with
  | .error e => .error e
  | .ok d => .ok (renameCols m d)

/-- SCD2 configuration read from the UI: checkbox plus the three field
name line edits. -/
structure SCD2Config where
  enabled : Bool
  start_field : String
  end_field : String
  current_flag_field : String
  deriving DecidableEq, Repr

/-- Pandas column assignment `df[name] = v` with a scalar right-hand side:
overwrites every cell of an existing column, otherwise appends a new
column at the end holding `v` in every row. -/
def Dataset.setCol (d : Dataset) (name : String) (v : Value) : Dataset :=
  match colIdx d.columns name with
  | some i => ⟨d.columns, d.rows.map (fun r => r.set i v)⟩
  | none => ⟨d.columns ++ [name], d.rows.map (fun r => r ++ [v])⟩

/-- The SCD2 step of `run_etl_process` (source lines 1152-1157): when the
checkbox is enabled, three column assignments with the load timestamp,
`None` and `True`; otherwise nothing happens. -/
def apply_scd2 (d : Dataset) (cfg : SCD2Config) (now : Nat) : Dataset :=
  if cfg.enabled then
    ((d.setCol cfg.start_field (Value.vtime now)).setCol cfg.end_field
        Value.vnull).setCol cfg.current_flag_field (Value.vbool true)
  else d

/-- One step of Python dict construction `mappings[source] = target`
(source line 1140): an existing key keeps its position and gets the new
value, a fresh key is appended. -/
def dictInsert (d : List (String × String)) (k v : String) :
    List (String × String) :=
  if d.any (fun p => p.1 = k) then
    d.map (fun p => if p.1 = k then (k, v) else p)
  else d ++ [(k, v)]

/-- The dict built by `run_etl_process` from the rows of the mappings
table (source lines 1134-1140). -/
def buildMappings (pairs : List (String × String)) : List (String × String) :=
  pairs.foldl (fun d p => dictInsert d p.1 p.2) []

/-- The UI handler `add_field_mapping` (source lines 1101-1122): refuses to
add a pair whose source field is already mapped in the table, otherwise
appends the new row. -/
def add_field_mapping (table : List (String × String)) (s t : String) :
    Option (List (String × String)) :=
  if table.any (fun p => p.1 = s) then none
  else some (table ++ [(s, t)])

/-- The core flow of `run_etl_process` (source lines 1124-1172): guard on
missing source data, empty target and empty mapping dict; transform; on
success one `insert_data` call, on a raised mapping error none. The
result lists the insert calls performed, each with its target table and
payload. -/
def run_etl_process (source : Option Dataset) (target : String)
    (tableRows : List (String × String)) (scd2 : SCD2Config) (now : Nat) :
    List (String × Dataset) :=
  match source with
  | none => []
  | some src =>
    if target = "" then []
    else
      let mappings := buildMappings tableRows
      if mappings.isEmpty then []
      else
        match apply_mapping src mappings with
        | .error _ => []
        | .ok d => [(target, apply_scd2 d scd2 now)]

/-- The two DataFrame variables alive in the transform step of
`run_etl_process`: the loaded source and the working copy. Line 1149 takes
a `.copy()` of the selection, so `etl_data` shares no storage with
`source_data` and the later in-place operations act on the `etl_data`
component alone. -/
structure EtlVars where
  source_data : Dataset
  etl_data : Dataset
  deriving DecidableEq, Repr

/-- Source line 1149: `etl_data = source_data[[src for src in
mappings.keys()]].copy()`. -/
def stmt_select_copy (v : EtlVars) (m : List (String × String)) :
    Except MappingError EtlVars :=
  match dfSelect v.source_data (m.map Prod.fst) with
  | .error e => .error e
  | .ok d => .ok ⟨v.source_data, d⟩

/-- Source line 1150: `etl_data.rename(columns=mappings, inplace=True)`,
an in-place update of the copy. -/
def stmt_rename (v : EtlVars) (m : List (String × String)) : EtlVars :=
  ⟨v.source_data, renameCols m v.etl_data⟩

/-- Source lines 1152-1157: the guarded SCD2 column assignments, in-place
updates of the copy. -/
def stmt_scd2 (v : EtlVars) (cfg : SCD2Config) (now : Nat) : EtlVars :=
  ⟨v.source_data, apply_scd2 v.etl_data cfg now⟩

/-- The transform of `run_etl_process` as a transformer of the two-variable
state, statement by statement. -/
def run_etl_transform_state (v : EtlVars) (m : List (String × String))
    (cfg : SCD2Config) (now : Nat) : Except MappingError EtlVars :=
  match stmt_select_copy v m with
  | .error e => .error e
  | .ok v1 => .ok (stmt_scd2 (stmt_rename v1 m) cfg now)

/-- Connection state of `DatabaseManager`: `self.engine`, absent until the
first successful `create_engine`, identified by its connection string. -/
structure DBState where
  engine : Option String
  deriving DecidableEq, Repr

/-- PostgreSQL connection string (source line 46). -/
def pgConnStr (username password host port database : String) : String :=
  "postgresql://" ++ username ++ ":" ++ password ++ "@" ++ host ++ ":" ++
    port ++ "/" ++ database

/-- MySQL connection string (source line 48). -/
def mysqlConnStr (username password host port database : String) : String :=
  "mysql+pymysql://" ++ username ++ ":" ++ password ++ "@" ++ host ++ ":" ++
    port ++ "/" ++ database

/-- Outcome of a `connect` call: the resulting manager state, the returned
`(success, message)` pair, and the network calls performed (`reflect` is
the only operation that touches the database; `create_engine` is lazy). -/
structure ConnectOutcome where
  state : DBState
  ok : Bool
  message : String
  netCalls : List String
  deriving DecidableEq, Repr

/-- Shared tail of `connect` for a recognized dialect (source lines 52-56):
`self.engine` is assigned the new engine first, then `reflect` runs; an
exception from `reflect` is caught and reported, but the assignment to
`self.engine` has already happened. -/
def connectWith (connStr : String) (reflect : String → Except String Unit) :
    ConnectOutcome :=
  match reflect connStr with
  | .ok _ => ⟨⟨some connStr⟩, true, "Connection successful", [connStr]⟩
  | .error e => ⟨⟨some connStr⟩, false, e, [connStr]⟩

/-- `DatabaseManager.connect` (source lines 43-56). The unsupported-dialect
branch raises `ValueError` before any engine is built, and the handler
returns its text with the state untouched. -/
def connect (st : DBState) (db_type host port database username password : String)
    (reflect : String → Except String Unit) : ConnectOutcome :=
  if db_type = "PostgreSQL" then
    connectWith (pgConnStr username password host port database) reflect
  else if db_type = "MySQL" then
    connectWith (mysqlConnStr username password host port database) reflect
  else
    ⟨st, false, "Unsupported database type", []⟩

/-- Python exceptions the manager methods can raise: `AttributeError` from
calling a method on `self.engine = None`, and `SQLAlchemyError` from the
driver. Only the latter is caught by the `except SQLAlchemyError` handlers. -/
inductive PyExc where
  | attributeError : String → PyExc
  | sqlalchemyError : String → PyExc
  deriving DecidableEq, Repr

/-- Payload of a successful `execute_sql`: the fetched rows or the fixed
status message. -/
inductive QueryPayload where
  | resultRows : List (List Value) → QueryPayload
  | message : String → QueryPayload
  deriving DecidableEq, Repr

/-- Result object of `connection.execute`: whether the statement returned
rows, and the rows `fetchall` would yield. -/
structure ExecResult where
  returns_rows : Bool
  fetched : List (List Value)
  deriving DecidableEq, Repr

/-- A `try ... except SQLAlchemyError as e` block: driver errors reach the
handler, any other exception propagates. -/
def tryExceptSQLA {α : Type} (body : Except PyExc α) (handler : String → α) :
    Except PyExc α :=
  match body with
  | .error (.sqlalchemyError e) => .ok (handler e)
  | other => other

/-- Body of `execute_sql` (source lines 83-90): fails with `AttributeError`
when `self.engine` is `None`, otherwise runs the statement through the
driver oracle and classifies by `returns_rows`; the triple carries the
`(success, payload)` pair and whether `commit` was called. -/
def execute_sql_body (engine : Option String)
    (db : String → Except String ExecResult) (sql : String) :
    Except PyExc (Bool × QueryPayload × Bool) :=
  match engine with
  | none => .error (.attributeError "NoneType object has no attribute connect")
  | some _ =>
    match db sql with
    | .error e => .error (.sqlalchemyError e)
    | .ok r =>
      if r.returns_rows then .ok (true, .resultRows r.fetched, false)
      else .ok (true, .message "Query executed successfully", true)

/-- `DatabaseManager.execute_sql` (source lines 82-92): the body wrapped in
the `except SQLAlchemyError` handler returning `(False, str(e))`. -/
def execute_sql (engine : Option String)
    (db : String → Except String ExecResult) (sql : String) :
    Except PyExc (Bool × QueryPayload × Bool) :=
  tryExceptSQLA (execute_sql_body engine db sql)
    (fun e => (false, .message e, false))

/-- Body of `insert_data` (source lines 170-173): `AttributeError` when no
engine exists, otherwise `data.to_sql(...)` through the driver oracle. -/
def insert_data_body (engine : Option String)
    (dbIns : String → Dataset → Except String Unit) (table : String)
    (data : Dataset) : Except PyExc (Bool × String) :=
  match engine with
  | none => .error (.attributeError "NoneType object has no attribute connect")
  | some _ =>
    match dbIns table data with
    | .ok _ => .ok (true, "Data inserted into " ++ table)
    | .error e => .error (.sqlalchemyError e)

/-- `DatabaseManager.insert_data` (source lines 169-175). -/
def insert_data (engine : Option String)
    (dbIns : String → Dataset → Except String Unit) (table : String)
    (data : Dataset) : Except PyExc (Bool × String) :=
  tryExceptSQLA (insert_data_body engine dbIns table data) (fun e => (false, e))

/-- A column as reported by the inspector: name, native type, nullability. -/
structure ColumnInfo where
  name : String
  ctype : String
  nullable : Bool
  deriving DecidableEq, Repr

/-- Inspector collaborator (`sqlalchemy.inspect`): the live catalog as an
association list from table name to its columns; asking for the columns of
a table absent from the catalog yields the empty list. -/
structure Inspector where
  catalog : List (String × List ColumnInfo)

/-- Catalog lookup by table name. -/
def lookupCols : List (String × List ColumnInfo) → String →
    Option (List ColumnInfo)
  | [], _ => none
  | (k, v) :: rest, x => if x = k then some v else lookupCols rest x

/-- `DatabaseManager.get_tables` (source lines 58-62): empty list when no
engine exists, otherwise the inspector's table names. -/
def get_tables (engine : Option String) (insp : Inspector) : List String :=
  match engine with
  | none => []
  | some _ => insp.catalog.map Prod.fst

/-- `DatabaseManager.get_table_columns` (source lines 64-68): empty list
when no engine exists, otherwise the inspector's columns for the table. -/
def get_table_columns (engine : Option String) (insp : Inspector)
    (t : String) : List ColumnInfo :=
  match engine with
  | none => []
  | some _ => (lookupCols insp.catalog t).getD []

/-- Cell access by row and column position, used to state that the
transform copies values. -/
def Dataset.cell (d : Dataset) (i j : Nat) : Option Value :=
  d.rows[i]?.bind (fun r => r[j]?)

/-- Rectangularity invariant of a DataFrame: every row has one cell per
column. -/
def Dataset.WF (d : Dataset) : Prop :=
  ∀ r ∈ d.rows, r.length = d.columns.length

instance (d : Dataset) : Decidable d.WF := by
  unfold Dataset.WF; infer_instance

theorem colIdx_lt_length {hs : List String} {x : String} {i : Nat}
    (h : colIdx hs x = some i) : i < hs.length := by
  induction hs generalizing i with
  | nil => simp [colIdx] at h
  | cons c cs ih =>
    rw [colIdx] at h
    by_cases hx : x = c
    · rw [if_pos hx] at h
      injection h with h
      subst h
      simp
    · simp only [if_neg hx, Option.map_eq_some'] at h
      obtain ⟨j, hj, hji⟩ := h
      have := ih hj
      simp only [List.length_cons]
      omega

theorem colIdx_of_mem {hs : List String} {x : String} (h : x ∈ hs) :
    ∃ i, colIdx hs x = some i := by
  induction hs with
  | nil => simp at h
  | cons c cs ih =>
    by_cases hx : x = c
    · exact ⟨0, by simp [colIdx, hx]⟩
    · obtain ⟨i, hi⟩ := ih (by simpa [hx] using h)
      exact ⟨i + 1, by simp [colIdx, hx, hi]⟩

theorem colIdx_eq_none_iff {hs : List String} {x : String} :
    colIdx hs x = none ↔ x ∉ hs := by
  induction hs with
  | nil => simp [colIdx]
  | cons c cs ih =>
    by_cases hx : x = c
    · simp [colIdx, hx]
    · simp [colIdx, hx, ih]

theorem resolveIdxs_ok {headers cols : List String}
    (h : ∀ c ∈ cols, c ∈ headers) :
    ∃ idxs : List Nat, resolveIdxs headers cols = .ok idxs ∧
      idxs.length = cols.length ∧
      ∀ (j : Nat) (c : String), cols[j]? = some c →
        ∃ i : Nat, idxs[j]? = some i ∧ colIdx headers c = some i := by
  induction cols with
  | nil =>
    exact ⟨[], rfl, rfl, fun j c hc => by simp at hc⟩
  | cons c cs ih =>
    obtain ⟨i, hi⟩ := colIdx_of_mem (h c (List.mem_cons_self c cs))
    obtain ⟨idxs, hres, hlen, hspec⟩ :=
      ih (fun d hd => h d (List.mem_cons_of_mem c hd))
    refine ⟨i :: idxs, ?_, by simp [hlen], ?_⟩
    · simp [resolveIdxs, hi, hres]
    · intro j d hd
      cases j with
      | zero =>
        simp at hd
        subst hd
        exact ⟨i, by simp, hi⟩
      | succ j2 =>
        simp only [List.getElem?_cons_succ] at hd ⊢
        exact hspec j2 d hd

theorem resolveIdxs_missing {headers cols : List String} {f : String}
    (hf : f ∈ cols) (habs : f ∉ headers) :
    ∃ g, resolveIdxs headers cols = .error g ∧ g ∉ headers := by
  induction cols with
  | nil => simp at hf
  | cons c cs ih =>
    cases hidx : colIdx headers c with
    | none =>
      exact ⟨c, by simp [resolveIdxs, hidx], colIdx_eq_none_iff.mp hidx⟩
    | some i =>
      have hcmem : c ∈ headers := by
        by_contra hc
        rw [colIdx_eq_none_iff.mpr hc] at hidx
        exact Option.noConfusion hidx
      have hfcs : f ∈ cs := by
        rcases List.mem_cons.mp hf with h1 | h1
        · exact absurd (h1 ▸ hcmem) habs
        · exact h1
      obtain ⟨g, hg, hgabs⟩ := ih hfcs
      exact ⟨g, by simp [resolveIdxs, hidx, hg], hgabs⟩

theorem rename_keys {m : List (String × String)}
    (hnd : (m.map Prod.fst).Nodup) :
    (m.map Prod.fst).map (fun c => (lookupDict m c).getD c) = m.map Prod.snd := by
  induction m with
  | nil => rfl
  | cons p rest ih =>
    rw [List.map_cons, List.nodup_cons] at hnd
    obtain ⟨hk, hnd2⟩ := hnd
    have h1 : lookupDict (p :: rest) p.1 = some p.2 := by
      obtain ⟨k, v⟩ := p
      simp [lookupDict]
    have h2 : (rest.map Prod.fst).map (fun c => (lookupDict (p :: rest) c).getD c)
        = (rest.map Prod.fst).map (fun c => (lookupDict rest c).getD c) := by
      apply List.map_congr_left
      intro c hc
      have hne : c ≠ p.1 := fun h => hk (h ▸ hc)
      obtain ⟨k, v⟩ := p
      simp only [lookupDict, if_neg hne]
    simp only [List.map_cons, h1, Option.getD_some, h2, ih hnd2]

/-- C1: for every rectangular source Dataset and every valid field mapping
(no duplicate source fields, every source field among the source's
columns), the transform succeeds and yields a Dataset whose columns are
exactly the target fields in mapping order, whose row count equals the
source row count, and whose cell at row `i`, position `j` is exactly the
source cell at row `i` in the column named by the `j`-th source field: a
pure projection plus rename, with no filtering or row-level change. -/
theorem apply_mapping_projection (D : Dataset) (M : List (String × String))
    (hWF : D.WF) (hnd : (M.map Prod.fst).Nodup)
    (hmem : ∀ p ∈ M, p.1 ∈ D.columns) :
    ∃ out, apply_mapping D M = .ok out ∧
      out.columns = M.map Prod.snd ∧
      out.rows.length = D.rows.length ∧
      ∀ j p, M[j]? = some p → ∃ si, colIdx D.columns p.1 = some si ∧
        ∀ i, out.cell i j = D.cell i si := by
  have hcols : ∀ c ∈ M.map Prod.fst, c ∈ D.columns := by
    intro c hc
    obtain ⟨p, hp, rfl⟩ := List.mem_map.mp hc
    exact hmem p hp
  obtain ⟨idxs, hres, hlen, hspec⟩ := resolveIdxs_ok hcols
  refine ⟨renameCols M ⟨M.map Prod.fst, D.rows.map (rowProject idxs)⟩,
    ?_, ?_, ?_, ?_⟩
  · simp [apply_mapping, dfSelect, hres]
  · simpa [renameCols] using rename_keys hnd
  · simp [renameCols]
  · intro j p hjp
    have hc : (M.map Prod.fst)[j]? = some p.1 := by
      rw [List.getElem?_map, hjp]
      rfl
    obtain ⟨si, hji, hsi⟩ := hspec j p.1 hc
    refine ⟨si, hsi, ?_⟩
    intro i
    cases hrow : D.rows[i]? with
    | none => simp [Dataset.cell, renameCols, List.getElem?_map, hrow]
    | some r =>
      have hmemr : r ∈ D.rows := List.getElem?_mem hrow
      have hrl : r.length = D.columns.length := hWF r hmemr
      have hsilt : si < r.length := hrl ▸ colIdx_lt_length hsi
      have hv : r[si]? = some r[si] := List.getElem?_eq_getElem hsilt
      simp [Dataset.cell, renameCols, List.getElem?_map, hrow, rowProject,
        hji, hv]

/-- Witness for C1 at the end-to-end example of the spec: columns
`[id, full_name, amt]`, two rows, mapping `full_name to name, amt to
value`. -/
theorem apply_mapping_projection_witness :
    ∃ out,
      apply_mapping
          ⟨["id", "full_name", "amt"],
           [[Value.vint 1, Value.vstr "A", Value.vint 10],
            [Value.vint 2, Value.vstr "B", Value.vint 20]]⟩
          [("full_name", "name"), ("amt", "value")] = .ok out ∧
      out.columns =
        ([("full_name", "name"), ("amt", "value")] :
          List (String × String)).map Prod.snd ∧
      out.rows.length =
        (Dataset.mk ["id", "full_name", "amt"]
          [[Value.vint 1, Value.vstr "A", Value.vint 10],
           [Value.vint 2, Value.vstr "B", Value.vint 20]]).rows.length ∧
      ∀ j p, ([("full_name", "name"), ("amt", "value")] :
          List (String × String))[j]? = some p →
        ∃ si, colIdx ["id", "full_name", "amt"] p.1 = some si ∧
          ∀ i, out.cell i j =
            Dataset.cell
              ⟨["id", "full_name", "amt"],
               [[Value.vint 1, Value.vstr "A", Value.vint 10],
                [Value.vint 2, Value.vstr "B", Value.vint 20]]⟩ i si :=
  apply_mapping_projection
    ⟨["id", "full_name", "amt"],
     [[Value.vint 1, Value.vstr "A", Value.vint 10],
      [Value.vint 2, Value.vstr "B", Value.vint 20]]⟩
    [("full_name", "name"), ("amt", "value")]
    (by decide) (by decide) (by decide)

theorem any_fst_eq (d : List (String × String)) (k : String) :
    d.any (fun p => p.1 = k) = true ↔ k ∈ d.map Prod.fst := by
  simp [List.any_eq_true, List.mem_map]

theorem dictInsert_map_fst (d : List (String × String)) (k v : String) :
    (dictInsert d k v).map Prod.fst =
      if d.any (fun p => p.1 = k) then d.map Prod.fst
      else d.map Prod.fst ++ [k] := by
  unfold dictInsert
  by_cases h : d.any (fun p => p.1 = k)
  · rw [if_pos h, if_pos h, List.map_map]
    apply List.map_congr_left
    intro p hp
    by_cases hpk : p.1 = k
    · simp [Function.comp, hpk]
    · simp [Function.comp, hpk]
  · rw [if_neg h, if_neg h]
    simp

theorem dictInsert_mem_keys (d : List (String × String)) (k v x : String) :
    x ∈ (dictInsert d k v).map Prod.fst ↔ x ∈ d.map Prod.fst ∨ x = k := by
  rw [dictInsert_map_fst]
  by_cases hany : d.any (fun p => p.1 = k)
  · rw [if_pos hany]
    have hk : k ∈ d.map Prod.fst := (any_fst_eq d k).mp hany
    constructor
    · exact Or.inl
    · rintro (h | rfl)
      · exact h
      · exact hk
  · simp [if_neg hany]

theorem dictInsert_keys_nodup {d : List (String × String)} (k v : String)
    (h : (d.map Prod.fst).Nodup) :
    ((dictInsert d k v).map Prod.fst).Nodup := by
  rw [dictInsert_map_fst]
  by_cases hany : d.any (fun p => p.1 = k)
  · rwa [if_pos hany]
  · rw [if_neg hany, List.nodup_append]
    refine ⟨h, List.nodup_singleton k, ?_⟩
    intro x hx hxk
    have hxk2 : x = k := by simpa using hxk
    subst hxk2
    exact absurd ((any_fst_eq d x).mpr hx) (by simpa using hany)

theorem foldl_dictInsert_nodup (P : List (String × String))
    (d : List (String × String)) (h : (d.map Prod.fst).Nodup) :
    (((P.foldl (fun d p => dictInsert d p.1 p.2) d)).map Prod.fst).Nodup := by
  induction P generalizing d with
  | nil => simpa using h
  | cons p rest ih => exact ih _ (dictInsert_keys_nodup _ _ h)

theorem buildMappings_keys_nodup (P : List (String × String)) :
    ((buildMappings P).map Prod.fst).Nodup :=
  foldl_dictInsert_nodup P [] (by simp)

theorem foldl_dictInsert_mem (P : List (String × String))
    (d : List (String × String)) (x : String) :
    x ∈ (P.foldl (fun d p => dictInsert d p.1 p.2) d).map Prod.fst ↔
      x ∈ d.map Prod.fst ∨ x ∈ P.map Prod.fst := by
  induction P generalizing d with
  | nil => simp
  | cons p rest ih =>
    rw [List.foldl_cons, ih, dictInsert_mem_keys]
    simp only [List.map_cons, List.mem_cons]
    tauto

theorem buildMappings_mem_keys (P : List (String × String)) (x : String) :
    x ∈ (buildMappings P).map Prod.fst ↔ x ∈ P.map Prod.fst := by
  rw [buildMappings, foldl_dictInsert_mem]
  simp

/-- C3: for every source Dataset and every mapping-table content that
references a source field absent from the Dataset's columns, the transform
raises an unknown-source-field error (naming a field absent from the
columns) and `run_etl_process` performs no insert at all. -/
theorem unknown_field_rejected (D : Dataset) (P : List (String × String))
    (f : String) (scd2 : SCD2Config) (now : Nat) (target : String)
    (hf : f ∈ P.map Prod.fst) (habs : f ∉ D.columns) :
    (∃ g, g ∉ D.columns ∧
      apply_mapping D (buildMappings P) = .error (.unknownSourceField g)) ∧
    run_etl_process (some D) target P scd2 now = [] := by
  have hfkeys : f ∈ (buildMappings P).map Prod.fst :=
    (buildMappings_mem_keys P f).mpr hf
  obtain ⟨g, hg, hgabs⟩ := resolveIdxs_missing hfkeys habs
  have hmap : apply_mapping D (buildMappings P) =
      .error (.unknownSourceField g) := by
    simp [apply_mapping, dfSelect, hg]
  refine ⟨⟨g, hgabs, hmap⟩, ?_⟩
  by_cases htgt : target = ""
  · simp [run_etl_process, htgt]
  · have hne : (buildMappings P).isEmpty = false := by
      rcases hemp : buildMappings P with _ | ⟨q, rest⟩
      · rw [hemp] at hfkeys
        simp at hfkeys
      · rfl
    simp [run_etl_process, htgt, hne, hmap]

/-- Witness for C3: a one-column Dataset and a mapping whose only source
field is absent from it. -/
theorem unknown_field_rejected_witness :
    (∃ g, g ∉ (Dataset.mk ["a"] [[Value.vint 1]]).columns ∧
      apply_mapping ⟨["a"], [[Value.vint 1]]⟩ (buildMappings [("b", "x")]) =
        .error (.unknownSourceField g)) ∧
    run_etl_process (some ⟨["a"], [[Value.vint 1]]⟩) "t" [("b", "x")]
        ⟨false, "", "", ""⟩ 0 = [] :=
  unknown_field_rejected ⟨["a"], [[Value.vint 1]]⟩ [("b", "x")] "b"
    ⟨false, "", "", ""⟩ 0 "t" (by decide) (by decide)

/-- C2 counterexample: the pair list `[(a to x), (a to y)]` maps the source
field `a` twice, yet the core does not fail: `run_etl_process` collapses
the duplicate into a last-wins dictionary, the transform succeeds, and an
insert is performed. -/
theorem duplicate_source_counterexample :
    apply_mapping ⟨["a"], [[Value.vint 1]]⟩
        (buildMappings [("a", "x"), ("a", "y")]) =
      .ok ⟨["y"], [[Value.vint 1]]⟩ ∧
    run_etl_process (some ⟨["a"], [[Value.vint 1]]⟩) "t"
        [("a", "x"), ("a", "y")] ⟨false, "", "", ""⟩ 0 ≠ [] := by
  constructor
  · rfl
  · decide

/-- C2 amended: duplicate source fields are rejected at the UI boundary
(`add_field_mapping` refuses a source field that is already mapped), and
the dictionary the core builds from the mapping table always has unique
source fields, a duplicated pair list being silently collapsed to its last
target rather than rejected. -/
theorem duplicate_source_handling :
    (∀ (table : List (String × String)) (s t t2 : String),
        (s, t) ∈ table → add_field_mapping table s t2 = none) ∧
    (∀ P : List (String × String),
        ((buildMappings P).map Prod.fst).Nodup) := by
  constructor
  · intro table s t t2 hmem
    have hany : table.any (fun p => p.1 = s) = true :=
      (any_fst_eq table s).mpr (List.mem_map.mpr ⟨(s, t), hmem, rfl⟩)
    simp [add_field_mapping, hany]
  · exact buildMappings_keys_nodup

/-- Witness for the amended C2: the UI refuses remapping source `a`, and
the dictionary built from a duplicated pair list has unique keys. -/
theorem duplicate_source_handling_witness :
    add_field_mapping [("a", "x")] "a" "y" = none ∧
    ((buildMappings [("a", "x"), ("a", "y")]).map Prod.fst).Nodup :=
  ⟨duplicate_source_handling.1 [("a", "x")] "a" "x" "y" (by decide),
   duplicate_source_handling.2 [("a", "x"), ("a", "y")]⟩

theorem setCol_fresh {d : Dataset} {name : String} (v : Value)
    (h : name ∉ d.columns) :
    d.setCol name v = ⟨d.columns ++ [name], d.rows.map (fun r => r ++ [v])⟩ := by
  simp [Dataset.setCol, colIdx_eq_none_iff.mpr h]

/-- C4 counterexample: with SCD2 enabled and a start field name that
collides with an existing column, the assignment overwrites that column in
place, so only two columns are added instead of three. -/
theorem apply_scd2_collision_counterexample :
    ¬ ((apply_scd2 ⟨["a"], [[Value.vint 1]]⟩ ⟨true, "a", "e", "f"⟩ 7).columns.length
        = (Dataset.mk ["a"] [[Value.vint 1]]).columns.length + 3) := by
  decide

/-- C4 amended: `apply_scd2` with the checkbox disabled returns the input
Dataset unchanged; with it enabled and the three configured names pairwise
distinct and absent from the Dataset's columns, it appends exactly those
three columns, holding in every row the load timestamp, null and true; a
configured name that already exists (or repeats among the three) is
overwritten in place instead of added. -/
theorem apply_scd2_shape (d : Dataset) (cfg : SCD2Config) (now : Nat) :
    (cfg.enabled = false → apply_scd2 d cfg now = d) ∧
    (cfg.enabled = true →
      cfg.start_field ∉ d.columns →
      cfg.end_field ∉ d.columns →
      cfg.current_flag_field ∉ d.columns →
      cfg.start_field ≠ cfg.end_field →
      cfg.start_field ≠ cfg.current_flag_field →
      cfg.end_field ≠ cfg.current_flag_field →
      apply_scd2 d cfg now =
        ⟨d.columns ++ [cfg.start_field, cfg.end_field, cfg.current_flag_field],
         d.rows.map (fun r =>
           r ++ [Value.vtime now, Value.vnull, Value.vbool true])⟩) := by
  constructor
  · intro h
    simp [apply_scd2, h]
  · intro hen h1 h2 h3 h12 h13 h23
    have e1 : cfg.end_field ∉ d.columns ++ [cfg.start_field] := by
      simp only [List.mem_append, List.mem_singleton]
      rintro (hh | hh)
      · exact h2 hh
      · exact h12 hh.symm
    have e2 : cfg.current_flag_field ∉
        (d.columns ++ [cfg.start_field]) ++ [cfg.end_field] := by
      simp only [List.mem_append, List.mem_singleton]
      rintro ((hh | hh) | hh)
      · exact h3 hh
      · exact h13 hh.symm
      · exact h23 hh.symm
    have s1 : d.setCol cfg.start_field (Value.vtime now) =
        ⟨d.columns ++ [cfg.start_field],
         d.rows.map (fun r => r ++ [Value.vtime now])⟩ :=
      setCol_fresh _ h1
    have s2 : (Dataset.mk (d.columns ++ [cfg.start_field])
          (d.rows.map (fun r => r ++ [Value.vtime now]))).setCol
            cfg.end_field Value.vnull =
        ⟨(d.columns ++ [cfg.start_field]) ++ [cfg.end_field],
         (d.rows.map (fun r => r ++ [Value.vtime now])).map
           (fun r => r ++ [Value.vnull])⟩ :=
      setCol_fresh _ e1
    have s3 : (Dataset.mk ((d.columns ++ [cfg.start_field]) ++ [cfg.end_field])
          ((d.rows.map (fun r => r ++ [Value.vtime now])).map
            (fun r => r ++ [Value.vnull]))).setCol
            cfg.current_flag_field (Value.vbool true) =
        ⟨((d.columns ++ [cfg.start_field]) ++ [cfg.end_field]) ++
            [cfg.current_flag_field],
         ((d.rows.map (fun r => r ++ [Value.vtime now])).map
            (fun r => r ++ [Value.vnull])).map
           (fun r => r ++ [Value.vbool true])⟩ :=
      setCol_fresh _ e2
    rw [apply_scd2, if_pos hen, s1, s2, s3]
    simp [List.map_map, Function.comp]

/-- Witness for the amended C4 at the SCD2 scenario of the spec. -/
theorem apply_scd2_shape_witness :
    apply_scd2 ⟨["name", "value"], [[Value.vstr "A", Value.vint 10]]⟩
        ⟨false, "valid_from", "valid_to", "is_current"⟩ 5
      = ⟨["name", "value"], [[Value.vstr "A", Value.vint 10]]⟩ ∧
    apply_scd2 ⟨["name", "value"], [[Value.vstr "A", Value.vint 10]]⟩
        ⟨true, "valid_from", "valid_to", "is_current"⟩ 5
      = ⟨["name", "value"] ++ ["valid_from", "valid_to", "is_current"],
         ([[Value.vstr "A", Value.vint 10]] : List (List Value)).map (fun r =>
           r ++ [Value.vtime 5, Value.vnull, Value.vbool true])⟩ :=
  ⟨(apply_scd2_shape ⟨["name", "value"], [[Value.vstr "A", Value.vint 10]]⟩
      ⟨false, "valid_from", "valid_to", "is_current"⟩ 5).1 rfl,
   (apply_scd2_shape ⟨["name", "value"], [[Value.vstr "A", Value.vint 10]]⟩
      ⟨true, "valid_from", "valid_to", "is_current"⟩ 5).2 rfl (by decide)
     (by decide) (by decide) (by decide) (by decide) (by decide)⟩

/-- C5 counterexample: with a prior engine in place, a PostgreSQL connect
whose reflection step fails leaves the manager holding the new engine, not
the previously established one: prior connection state is lost. -/
theorem connect_reflect_failure_counterexample :
    (connect ⟨some "old"⟩ "PostgreSQL" "h" "5432" "d" "u" "p"
        (fun _ => .error "connection refused")).ok = false ∧
    (connect ⟨some "old"⟩ "PostgreSQL" "h" "5432" "d" "u" "p"
        (fun _ => .error "connection refused")).state ≠ ⟨some "old"⟩ := by
  constructor
  · rfl
  · intro h
    have : some (pgConnStr "u" "p" "h" "5432" "d") = some "old" :=
      congrArg DBState.engine h
    simp [pgConnStr] at this

/-- C5 amended: a connect that fails on an unsupported dialect leaves the
connection state unchanged, but a connect for a recognized dialect whose
reflection fails has already replaced `self.engine` with the new engine
before the failure, so the previously established connection state is not
preserved. -/
theorem connect_failure_state_effects (st : DBState)
    (host port database username password : String)
    (reflect : String → Except String Unit) :
    (∀ dbt, dbt ≠ "PostgreSQL" → dbt ≠ "MySQL" →
      (connect st dbt host port database username password reflect).state = st) ∧
    (∀ e, reflect (pgConnStr username password host port database) = .error e →
      (connect st "PostgreSQL" host port database username password
          reflect).state =
        ⟨some (pgConnStr username password host port database)⟩ ∧
      (connect st "PostgreSQL" host port database username password
          reflect).ok = false) ∧
    (∀ e, reflect (mysqlConnStr username password host port database) =
        .error e →
      (connect st "MySQL" host port database username password reflect).state =
        ⟨some (mysqlConnStr username password host port database)⟩ ∧
      (connect st "MySQL" host port database username password
          reflect).ok = false) := by
  refine ⟨?_, ?_, ?_⟩
  · intro dbt h1 h2
    simp [connect, h1, h2]
  · intro e he
    simp [connect, connectWith, he]
  · intro e he
    simp [connect, connectWith, he]

/-- Witness for the amended C5: an unsupported dialect keeps the old
engine; a PostgreSQL connect with failing reflection ends holding the new
engine with a failure result. -/
theorem connect_failure_state_effects_witness :
    (connect ⟨some "old"⟩ "Oracle" "h" "5432" "d" "u" "p"
        (fun _ => .error "x")).state = ⟨some "old"⟩ ∧
    (connect ⟨some "old"⟩ "PostgreSQL" "h" "5432" "d" "u" "p"
          (fun _ => .error "x")).state =
        ⟨some (pgConnStr "u" "p" "h" "5432" "d")⟩ ∧
      (connect ⟨some "old"⟩ "PostgreSQL" "h" "5432" "d" "u" "p"
          (fun _ => .error "x")).ok = false :=
  ⟨(connect_failure_state_effects ⟨some "old"⟩ "h" "5432" "d" "u" "p"
      (fun _ => .error "x")).1 "Oracle" (by decide) (by decide),
   (connect_failure_state_effects ⟨some "old"⟩ "h" "5432" "d" "u" "p"
      (fun _ => .error "x")).2.1 "x" rfl⟩

/-- C6: for every dialect other than PostgreSQL and MySQL, `connect`
returns a failure carrying the unsupported-database-type message, performs
no network call at all, and leaves the connection state untouched. -/
theorem connect_unsupported (st : DBState)
    (dbt host port database username password : String)
    (reflect : String → Except String Unit)
    (h1 : dbt ≠ "PostgreSQL") (h2 : dbt ≠ "MySQL") :
    connect st dbt host port database username password reflect =
      ⟨st, false, "Unsupported database type", []⟩ := by
  simp [connect, h1, h2]

/-- Witness for C6 at the spec's example `connect("Oracle", ...)`. -/
theorem connect_unsupported_witness :
    connect ⟨none⟩ "Oracle" "h" "5432" "d" "u" "p" (fun _ => .ok ()) =
      ⟨⟨none⟩, false, "Unsupported database type", []⟩ :=
  connect_unsupported ⟨none⟩ "Oracle" "h" "5432" "d" "u" "p" (fun _ => .ok ())
    (by decide) (by decide)

/-- C7: with a connected engine, `execute_sql` classifies by whether the
driver reports row-producing results: rows produce a successful `Rows`
outcome without a commit, a rowless statement commits and produces the
fixed success message, and a driver error produces a failure carrying the
driver's message verbatim. -/
theorem execute_sql_classification (eng : String)
    (db : String → Except String ExecResult) (sql : String) :
    (∀ r : ExecResult, db sql = .ok r → r.returns_rows = true →
      execute_sql (some eng) db sql = .ok (true, .resultRows r.fetched, false)) ∧
    (∀ r : ExecResult, db sql = .ok r → r.returns_rows = false →
      execute_sql (some eng) db sql =
        .ok (true, .message "Query executed successfully", true)) ∧
    (∀ e : String, db sql = .error e →
      execute_sql (some eng) db sql = .ok (false, .message e, false)) := by
  refine ⟨?_, ?_, ?_⟩
  · intro r hr hrows
    simp [execute_sql, execute_sql_body, tryExceptSQLA, hr, hrows]
  · intro r hr hrows
    simp [execute_sql, execute_sql_body, tryExceptSQLA, hr, hrows]
  · intro e he
    simp [execute_sql, execute_sql_body, tryExceptSQLA, he]

/-- Witness for C7 at the spec's examples: a SELECT producing one row and
one column, and a DELETE producing no rows. -/
theorem execute_sql_classification_witness :
    execute_sql (some "e") (fun _ => .ok ⟨true, [[Value.vint 1]]⟩)
        "SELECT 1" = .ok (true, .resultRows [[Value.vint 1]], false) ∧
    execute_sql (some "e") (fun _ => .ok ⟨false, []⟩)
        "DELETE FROM t WHERE false" =
      .ok (true, .message "Query executed successfully", true) ∧
    execute_sql (some "e") (fun _ => .error "syntax error")
        "SELEC 1" = .ok (false, .message "syntax error", false) :=
  ⟨(execute_sql_classification "e" (fun _ => .ok ⟨true, [[Value.vint 1]]⟩)
      "SELECT 1").1 ⟨true, [[Value.vint 1]]⟩ rfl rfl,
   (execute_sql_classification "e" (fun _ => .ok ⟨false, []⟩)
      "DELETE FROM t WHERE false").2.1 ⟨false, []⟩ rfl rfl,
   (execute_sql_classification "e" (fun _ => .error "syntax error")
      "SELEC 1").2.2 "syntax error" rfl⟩

/-- C8: `get_tables` returns the empty list when not connected, and
`get_table_columns` returns the empty list both when not connected and
when the named table is absent from the catalog. -/
theorem introspection_empty_cases (insp : Inspector) (t : String) :
    get_tables none insp = [] ∧
    get_table_columns none insp t = [] ∧
    (∀ eng : String, lookupCols insp.catalog t = none →
      get_table_columns (some eng) insp t = []) := by
  refine ⟨rfl, rfl, ?_⟩
  intro eng habs
  simp [get_table_columns, habs]

/-- Witness for C8: an empty connection state and a catalog without the
requested table. -/
theorem introspection_empty_cases_witness :
    get_tables none ⟨[("t1", [])]⟩ = [] ∧
    get_table_columns none ⟨[("t1", [])]⟩ "missing" = [] ∧
    get_table_columns (some "e") ⟨[("t1", [])]⟩ "missing" = [] :=
  ⟨(introspection_empty_cases ⟨[("t1", [])]⟩ "missing").1,
   (introspection_empty_cases ⟨[("t1", [])]⟩ "missing").2.1,
   (introspection_empty_cases ⟨[("t1", [])]⟩ "missing").2.2 "e" rfl⟩

/-- C9: the transform step of `run_etl_process`, run statement by
statement over the two DataFrame variables, leaves the source Dataset
exactly as it was (line 1149 copies before the in-place operations) and
produces its output as a new value equal to the mapping transform followed
by the SCD2 step. -/
theorem etl_transform_preserves_source (v : EtlVars)
    (m : List (String × String)) (cfg : SCD2Config) (now : Nat) (v2 : EtlVars)
    (h : run_etl_transform_state v m cfg now = .ok v2) :
    v2.source_data = v.source_data ∧
    ∃ d : Dataset, apply_mapping v.source_data m = .ok d ∧
      v2.etl_data = apply_scd2 d cfg now := by
  rw [run_etl_transform_state] at h
  cases hsel : stmt_select_copy v m with
  | error e =>
    rw [hsel] at h
    exact absurd h (by simp)
  | ok v1 =>
    rw [hsel] at h
    rw [stmt_select_copy] at hsel
    cases hdf : dfSelect v.source_data (m.map Prod.fst) with
    | error e =>
      rw [hdf] at hsel
      exact absurd hsel (by simp)
    | ok d =>
      rw [hdf] at hsel
      have hv1 : v1 = ⟨v.source_data, d⟩ := by
        injection hsel with hh
        exact hh.symm
      have hv2 : v2 = stmt_scd2 (stmt_rename v1 m) cfg now := by
        injection h with hh
        exact hh.symm
      subst hv1 hv2
      refine ⟨rfl, renameCols m d, ?_, rfl⟩
      simp [apply_mapping, hdf]

/-- Witness for C9 at the end-to-end example of the spec, with SCD2
disabled. -/
theorem etl_transform_preserves_source_witness :
    (EtlVars.mk
        ⟨["id", "full_name", "amt"],
         [[Value.vint 1, Value.vstr "A", Value.vint 10],
          [Value.vint 2, Value.vstr "B", Value.vint 20]]⟩
        ⟨["name", "value"],
         [[Value.vstr "A", Value.vint 10],
          [Value.vstr "B", Value.vint 20]]⟩).source_data =
      (EtlVars.mk
        ⟨["id", "full_name", "amt"],
         [[Value.vint 1, Value.vstr "A", Value.vint 10],
          [Value.vint 2, Value.vstr "B", Value.vint 20]]⟩
        ⟨[], []⟩).source_data ∧
    ∃ d : Dataset,
      apply_mapping
          ⟨["id", "full_name", "amt"],
           [[Value.vint 1, Value.vstr "A", Value.vint 10],
            [Value.vint 2, Value.vstr "B", Value.vint 20]]⟩
          [("full_name", "name"), ("amt", "value")] = .ok d ∧
      (EtlVars.mk
        ⟨["id", "full_name", "amt"],
         [[Value.vint 1, Value.vstr "A", Value.vint 10],
          [Value.vint 2, Value.vstr "B", Value.vint 20]]⟩
        ⟨["name", "value"],
         [[Value.vstr "A", Value.vint 10],
          [Value.vstr "B", Value.vint 20]]⟩).etl_data =
        apply_scd2 d ⟨false, "valid_from", "valid_to", "is_current"⟩ 5 :=
  etl_transform_preserves_source
    ⟨⟨["id", "full_name", "amt"],
      [[Value.vint 1, Value.vstr "A", Value.vint 10],
       [Value.vint 2, Value.vstr "B", Value.vint 20]]⟩, ⟨[], []⟩⟩
    [("full_name", "name"), ("amt", "value")]
    ⟨false, "valid_from", "valid_to", "is_current"⟩ 5
    ⟨⟨["id", "full_name", "amt"],
      [[Value.vint 1, Value.vstr "A", Value.vint 10],
       [Value.vint 2, Value.vstr "B", Value.vint 20]]⟩,
     ⟨["name", "value"],
      [[Value.vstr "A", Value.vint 10], [Value.vstr "B", Value.vint 20]]⟩⟩
    rfl

/-- C10: without a successful connect, `execute_sql` and `insert_data`
raise an uncaught `AttributeError` rather than returning a typed result,
while with an engine present they always return a `(success, payload)`
pair, every driver error being caught and turned into a failure result. -/
theorem connection_precondition (db : String → Except String ExecResult)
    (dbIns : String → Dataset → Except String Unit) (sql table : String)
    (data : Dataset) :
    (∃ msg : String,
      execute_sql none db sql = .error (.attributeError msg)) ∧
    (∃ msg : String,
      insert_data none dbIns table data = .error (.attributeError msg)) ∧
    (∀ eng : String, ∃ res : Bool × QueryPayload × Bool,
      execute_sql (some eng) db sql = .ok res) ∧
    (∀ eng : String, ∃ res : Bool × String,
      insert_data (some eng) dbIns table data = .ok res) := by
  refine ⟨⟨"NoneType object has no attribute connect", rfl⟩,
    ⟨"NoneType object has no attribute connect", rfl⟩, ?_, ?_⟩
  · intro eng
    cases hr : db sql with
    | error e =>
      exact ⟨(false, .message e, false),
        by simp [execute_sql, execute_sql_body, tryExceptSQLA, hr]⟩
    | ok r =>
      cases hrows : r.returns_rows with
      | true =>
        exact ⟨(true, .resultRows r.fetched, false),
          by simp [execute_sql, execute_sql_body, tryExceptSQLA, hr, hrows]⟩
      | false =>
        exact ⟨(true, .message "Query executed successfully", true),
          by simp [execute_sql, execute_sql_body, tryExceptSQLA, hr, hrows]⟩
  · intro eng
    cases hr : dbIns table data with
    | error e =>
      exact ⟨(false, e),
        by simp [insert_data, insert_data_body, tryExceptSQLA, hr]⟩
    | ok u =>
      exact ⟨(true, "Data inserted into " ++ table),
        by simp [insert_data, insert_data_body, tryExceptSQLA, hr]⟩

/-- Witness for C10 with a driver that fails every statement: the
disconnected calls raise, the connected calls return failure results. -/
theorem connection_precondition_witness :
    (∃ msg : String,
      execute_sql none (fun _ => .error "boom") "SELECT 1" =
        .error (.attributeError msg)) ∧
    (∃ msg : String,
      insert_data none (fun _ _ => .error "boom") "t" ⟨[], []⟩ =
        .error (.attributeError msg)) ∧
    (∀ eng : String, ∃ res : Bool × QueryPayload × Bool,
      execute_sql (some eng) (fun _ => .error "boom") "SELECT 1" = .ok res) ∧
    (∀ eng : String, ∃ res : Bool × String,
      insert_data (some eng) (fun _ _ => .error "boom") "t" ⟨[], []⟩ =
        .ok res) :=
  connection_precondition (fun _ => .error "boom") (fun _ _ => .error "boom")
    "SELECT 1" "t" ⟨[], []⟩

end ETL
